import Mathlib

/-!
# Verification of the bitcoin-agent repository

A shallow embedding of the TypeScript sources of the `bitcoin-agent`
demo application, together with theorems settling the testable
properties of its specification.

The repository contains two versions of the
`/api/tools/bitcoin-transaction` route handler
(`src/app/api/tools/bitcoin-transaction/route.ts`, embedded below in
namespace `Route`, and an older self-contained version, embedded in
namespace `Route2`) and two versions of the
`bitcoinChainSignatures` service module (embedded in namespaces
`Service0` and `Service1`; the functions they share verbatim live in
namespace `Service`).

Modelling conventions:
* JavaScript numbers are modelled by exact arithmetic: integers by
  `Int` / `Nat` and fractional values by `ℚ`.  `NaN` (the result of a
  failed `parseInt` / `parseFloat`) is modelled by `none` in
  `Option Int` / `Option ℚ`.  Bitwise operations (`<<`, `&`, `^`),
  which coerce to 32-bit two's-complement integers in JavaScript, are
  modelled exactly with an explicit reduction `toInt32`.
* `searchParams.get` returns `string | null`, modelled by
  `Option String`; JavaScript truthiness of such a value (`null` and
  `""` are falsy) is modelled by `truthy`, and the `x || d` default
  idiom by `jsOr`.
* Strings are Lean `String`s (lists of characters); the UTF-8 byte
  encoding used by `Buffer.from(s)` is modelled by `utf8Encode`.
-/

/-- JavaScript truthiness of a `string | null` value: `null` and the
empty string are falsy. -/
def truthy : Option String → Bool
  | none => false
  | some s => !s.isEmpty

/-- The JavaScript default idiom `x || d` on a `string | null` value. -/
def jsOr (o : Option String) (d : String) : String :=
  match o with
  | none => d
  | some s => if s.isEmpty then d else s

/-- Decimal digit test, `'0' ≤ c ≤ '9'`. -/
def isDigit (c : Char) : Bool := 48 ≤ c.toNat && c.toNat ≤ 57

/-- Numeric value of a decimal digit character. -/
def digitVal (c : Char) : ℕ := c.toNat - 48

/-- The natural number denoted by a list of decimal digit characters
(most significant first). -/
def natFromDigits (l : List Char) : ℕ :=
  l.foldl (fun a c => 10 * a + digitVal c) 0

/-- The exact rational value denoted by the decimal notation
`a . b` (integer digits `a`, fraction digits `b`). -/
def decimalValue (a b : List Char) : ℚ :=
  (natFromDigits a : ℚ) + (natFromDigits b : ℚ) / (10 : ℚ) ^ b.length

/-- Longest decimal-digit prefix of a character list, as a number;
`none` when there is no leading digit (JavaScript `NaN`). -/
def parseDigitPrefix (l : List Char) : Option ℕ :=
  let d := l.takeWhile isDigit
  if d.isEmpty then none else some (natFromDigits d)

/-- The JavaScript builtin `parseInt` (decimal fragment: optional
sign followed by a digit prefix; `none` models `NaN`). -/
def parseIntJS (s : String) : Option Int :=
  match s.data with
  | [] => none
  | c :: rest =>
    if c = '-' then (parseDigitPrefix rest).map (fun n => -(n : Int))
    else if c = '+' then (parseDigitPrefix rest).map (fun n => (n : Int))
    else (parseDigitPrefix (c :: rest)).map (fun n => (n : Int))

/-- Unsigned core of `parseFloat`: digits, optionally followed by a
decimal point and more digits, read as an exact rational. -/
def parseFloatCore (l : List Char) : Option ℚ :=
  let i := l.takeWhile isDigit
  let r := l.dropWhile isDigit
  match r with
  | '.' :: r2 =>
    let f := r2.takeWhile isDigit
    if i.isEmpty && f.isEmpty then none
    else some ((natFromDigits i : ℚ) + (natFromDigits f : ℚ) / (10 : ℚ) ^ f.length)
  | _ => if i.isEmpty then none else some ((natFromDigits i : ℚ))

/-- The JavaScript builtin `parseFloat` (plain decimal fragment,
without exponent notation; `none` models `NaN`), with exact rational
semantics. -/
def parseFloatJS (s : String) : Option ℚ :=
  match s.data with
  | [] => none
  | c :: rest =>
    if c = '-' then (parseFloatCore rest).map (fun q => -q)
    else if c = '+' then parseFloatCore rest
    else parseFloatCore (c :: rest)

/-- Lowercase hexadecimal digit character for a value `d < 16`. -/
def hexChar (d : ℕ) : Char :=
  if d < 10 then Char.ofNat (48 + d) else Char.ofNat (97 + (d - 10))

/-- Base-16 digits of a natural number, least significant first. -/
def hexRev (n : ℕ) : List Char :=
  if h : n = 0 then []
  else hexChar (n % 16) :: hexRev (n / 16)
termination_by n
decreasing_by exact Nat.div_lt_self (Nat.pos_of_ne_zero h) (by norm_num)

/-- Characters of the JavaScript `n.toString(16)` of a natural
number: lowercase hex, most significant first, `"0"` for zero. -/
def hexList (n : ℕ) : List Char :=
  if n = 0 then ['0'] else (hexRev n).reverse

/-- JavaScript `n.toString(16)` for a nonnegative integer. -/
def toHexString (n : ℕ) : String := ⟨hexList n⟩

/-- JavaScript `n.toString(16)` for a possibly-`NaN`, possibly
negative integer (`none` models `NaN`). -/
def jsHexRepr (n : Option Int) : String :=
  match n with
  | none => "NaN"
  | some i => if i < 0 then "-" ++ toHexString i.natAbs else toHexString i.toNat

/-- JavaScript decimal string interpolation of a possibly-`NaN`
integer value (`none` models `NaN`). -/
def jsNumRepr (n : Option Int) : String :=
  match n with
  | none => "NaN"
  | some i => toString i

/-- JavaScript `s.padStart(n, c)`. -/
def padStart (s : String) (n : ℕ) (c : Char) : String :=
  if n ≤ s.length then s else ⟨List.replicate (n - s.length) c ++ s.data⟩

/-- JavaScript `s.substring(0, n)`. -/
def jsSubstring0 (s : String) (n : ℕ) : String := ⟨s.data.take n⟩

/-- The two lowercase hex characters of one byte, as produced by
`Buffer.toString('hex')`. -/
def byteHexChars (b : ℕ) : List Char := [hexChar (b / 16 % 16), hexChar (b % 16)]

/-- Lowercase hex string of a byte list (`Buffer.toString('hex')`). -/
def hexOfBytes (bs : List ℕ) : String := ⟨(bs.map byteHexChars).flatten⟩

/-- UTF-8 bytes of one character. -/
def utf8Bytes (c : Char) : List ℕ :=
  let n := c.toNat
  if n < 128 then [n]
  else if n < 2048 then [192 + n / 64, 128 + n % 64]
  else if n < 65536 then [224 + n / 4096, 128 + n / 64 % 64, 128 + n % 64]
  else [240 + n / 262144, 128 + n / 4096 % 64, 128 + n / 64 % 64, 128 + n % 64]

/-- UTF-8 byte encoding of a string (`Buffer.from(s)`). -/
def utf8Encode (s : String) : List ℕ := (s.data.map utf8Bytes).flatten

/-- Reduction of an integer to JavaScript's 32-bit signed range
(`ToInt32`), as applied by the bitwise operators. -/
def toInt32 (n : Int) : Int := (n + 2 ^ 31) % 2 ^ 32 - 2 ^ 31

/-- JavaScript 32-bit `^` (xor) on integers already in (or reduced
to) the signed 32-bit range. -/
def xor32 (a b : Int) : Int :=
  toInt32 (Int.ofNat (Nat.xor (a % 2 ^ 32).toNat (b % 2 ^ 32).toNat))

/-- Lowercase hexadecimal digit test. -/
def isLowerHex (c : Char) : Bool :=
  (48 ≤ c.toNat && c.toNat ≤ 57) || (97 ≤ c.toNat && c.toNat ≤ 102)

-- Basic facts about the helpers.

theorem hexList_ne_nil (n : ℕ) : hexList n ≠ [] := by
  unfold hexList
  split
  · simp
  · rename_i h
    rw [hexRev]
    simp [h]

theorem hexRev_mem_isLowerHex : ∀ n c, c ∈ hexRev n → isLowerHex c = true := by
  intro n
  induction n using Nat.strong_induction_on with
  | _ n ih =>
    intro c hc
    rw [hexRev] at hc
    split at hc
    · simp at hc
    · rename_i h
      rcases List.mem_cons.mp hc with h1 | h2
      · subst h1
        have h16 : n % 16 < 16 := Nat.mod_lt _ (by norm_num)
        revert h16
        generalize n % 16 = d
        intro h16
        interval_cases d <;> decide
      · exact ih (n / 16) (Nat.div_lt_self (Nat.pos_of_ne_zero h) (by norm_num)) c h2

theorem hexList_mem_isLowerHex (n : ℕ) (c : Char) (hc : c ∈ hexList n) :
    isLowerHex c = true := by
  unfold hexList at hc
  split at hc
  · simp at hc
    subst hc
    decide
  · exact hexRev_mem_isLowerHex n c (List.mem_reverse.mp hc)

theorem hexRev_length_le (k : ℕ) : ∀ n, n < 16 ^ k → (hexRev n).length ≤ k := by
  induction k with
  | zero =>
    intro n hn
    interval_cases n
    rw [hexRev]
    simp
  | succ k ih =>
    intro n hn
    rw [hexRev]
    split
    · simp
    · rename_i h
      simp only [List.length_cons]
      have : n / 16 < 16 ^ k := by
        apply Nat.div_lt_of_lt_mul
        calc n < 16 ^ (k + 1) := hn
        _ = 16 * 16 ^ k := by ring
      exact Nat.succ_le_succ (ih _ this)

theorem hexList_length_le (k : ℕ) (hk : 1 ≤ k) (n : ℕ) (hn : n < 16 ^ k) :
    (hexList n).length ≤ k := by
  unfold hexList
  split
  · simpa
  · rw [List.length_reverse]
    exact hexRev_length_le k n hn

/-!
## The shared service helpers

`hashString`, `createBitcoinTransactionPayload`, `createRuneEtchPayload`
and `createRuneTransferPayload` appear verbatim in both versions of the
`bitcoinChainSignatures` service module; they are embedded once, in
namespace `Service`.
-/

namespace Service

/-- One step of the 32-bit rolling hash of `hashString`:
`hash = ((hash << 5) - hash) + char` followed by the 32-bit coercion
`hash = hash & hash`. -/
def hashStep (h : Int) (c : ℕ) : Int :=
  toInt32 (toInt32 (h * 32) - h + c)

/-- The `for` loop of `hashString` over the character codes of the
input. -/
def hashLoop : List ℕ → Int → Int
  | [], h => h
  | c :: rest, h => hashLoop rest (hashStep h c)

/-- The `while (hexHash.length < 64)` loop of `hashString`: append
`Math.abs(hash ^ hexHash.length).toString(16)` until the accumulated
hex string reaches 64 characters. -/
def extendLoop (h : Int) (acc : List Char) : List Char :=
  if acc.length < 64 then
    extendLoop h (acc ++ hexList ((xor32 h acc.length).natAbs))
  else acc
termination_by 64 - acc.length
decreasing_by
  simp only [List.length_append]
  have h1 : 1 ≤ (hexList ((xor32 h acc.length).natAbs)).length :=
    List.length_pos.mpr (hexList_ne_nil _)
  omega

/-- `hashString` from the service modules: the mock 32-bit rolling
hash, then `Math.abs(hash).toString(16)` extended to 64 characters
and truncated with `substring(0, 64)`. -/
def hashString (s : String) : String :=
  let h := hashLoop (s.data.map Char.toNat) 0
  jsSubstring0 ⟨extendLoop h (hexList h.natAbs)⟩ 64

/-- A Bitcoin UTXO record as used by `createBitcoinTransactionPayload`. -/
structure Utxo where
  txid : String
  vout : ℕ
  value : Int

/-- The `scriptPubKey` of a mock transaction output: either an address
object or a raw hex script. -/
inductive ScriptPubKey
  | address (a : String)
  | hex (h : String)
deriving DecidableEq, Repr

/-- A mock transaction input. -/
structure TxInput where
  txid : String
  vout : ℕ
  scriptSig : String
  sequence : ℕ
  witness : List String
deriving DecidableEq, Repr

/-- A mock transaction output. -/
structure TxOutput where
  value : Int
  scriptPubKey : ScriptPubKey
deriving DecidableEq, Repr

/-- The mock transaction payload of `createBitcoinTransactionPayload`. -/
structure TxPayload where
  inputs : List TxInput
  outputs : List TxOutput
  version : ℕ
  locktime : ℕ
deriving DecidableEq, Repr

/-- The MPC signing request parameters. -/
structure MpcSigningParams where
  path : String
  payload : String
  key_version : ℕ
deriving DecidableEq, Repr

/-- JSON string escaping as performed by `JSON.stringify` on the
characters that require it. -/
def jsonEscapeChar (c : Char) : List Char :=
  if c = '"' then ['\\', '"']
  else if c = '\\' then ['\\', '\\']
  else if c = Char.ofNat 8 then ['\\', 'b']
  else if c = Char.ofNat 9 then ['\\', 't']
  else if c = Char.ofNat 10 then ['\\', 'n']
  else if c = Char.ofNat 12 then ['\\', 'f']
  else if c = Char.ofNat 13 then ['\\', 'r']
  else if c.toNat < 32 then
    '\\' :: 'u' :: '0' :: '0' :: [hexChar (c.toNat / 16), hexChar (c.toNat % 16)]
  else [c]

/-- A JSON string literal for `s`, with escaping. -/
def jsonStr (s : String) : String :=
  "\"" ++ ⟨(s.data.map jsonEscapeChar).flatten⟩ ++ "\""

/-- `JSON.stringify` of a `scriptPubKey` value. -/
def stringifyScript : ScriptPubKey → String
  | .address a => "\x7b\"address\":" ++ jsonStr a ++ "\x7d"
  | .hex h => "\x7b\"hex\":" ++ jsonStr h ++ "\x7d"

/-- `JSON.stringify` of one transaction input. -/
def stringifyInput (i : TxInput) : String :=
  "\x7b\"txid\":" ++ jsonStr i.txid ++ ",\"vout\":" ++ toString i.vout ++
    ",\"scriptSig\":" ++ jsonStr i.scriptSig ++ ",\"sequence\":" ++ toString i.sequence ++
    ",\"witness\":[" ++ String.intercalate "," (i.witness.map jsonStr) ++ "]\x7d"

/-- `JSON.stringify` of one transaction output. -/
def stringifyOutput (o : TxOutput) : String :=
  "\x7b\"value\":" ++ toString o.value ++ ",\"scriptPubKey\":" ++
    stringifyScript o.scriptPubKey ++ "\x7d"

/-- `JSON.stringify` of the whole mock transaction payload, with the
field order of the source object literal. -/
def stringifyTxPayload (tp : TxPayload) : String :=
  "\x7b\"inputs\":[" ++ String.intercalate "," (tp.inputs.map stringifyInput) ++
    "],\"outputs\":[" ++ String.intercalate "," (tp.outputs.map stringifyOutput) ++
    "],\"version\":" ++ toString tp.version ++
    ",\"locktime\":" ++ toString tp.locktime ++ "\x7d"

/-- `createBitcoinTransactionPayload` from the service modules: builds
the mock two-output transaction (destination plus change minus the
fixed 1000-satoshi fee), appends a zero-value OP_RETURN output when
`opReturnHex` is given, and pairs it with the MPC signing parameters.
When `utxo?` is omitted the mock UTXO `amountSatoshis + 1000` is used. -/
def createBitcoinTransactionPayload (fromAddress fromPublicKey toAddress : String)
    (amountSatoshis : Int) (derivationPath : String)
    (opReturnHex : Option String := none) (utxo? : Option Utxo := none) :
    TxPayload × MpcSigningParams :=
  let _ := fromPublicKey
  let utxo := utxo?.getD ⟨"defaultTxid", 0, amountSatoshis + 1000⟩
  let baseOutputs : List TxOutput :=
    [⟨amountSatoshis, .address toAddress⟩,
     ⟨utxo.value - amountSatoshis - 1000, .address fromAddress⟩]
  let outputs : List TxOutput :=
    match opReturnHex with
    | some h => baseOutputs ++ [⟨0, .hex ("6a" ++ toHexString (h.length / 2) ++ h)⟩]
    | none => baseOutputs
  let transactionPayload : TxPayload :=
    ⟨[⟨utxo.txid, utxo.vout, "", 4294967295, []⟩], outputs, 1, 0⟩
  (transactionPayload,
   ⟨derivationPath, hashString (stringifyTxPayload transactionPayload), 0⟩)

/-- `createRuneEtchPayload` from the service modules:
`"52" ++ "45" ++ tickerHex ++ decimalsHex ++ supplyHex` (the
`mintHeight` parameter is accepted but unused by the source). -/
def createRuneEtchPayload (ticker : String) (decimals : ℕ)
    (supply : ℕ := 21000000) (mintHeight : ℕ := 840000) : String :=
  let runePrefix := "52"
  let etching := "45"
  let tickerHex := hexOfBytes (utf8Encode ticker)
  let decimalsHex := padStart (toHexString decimals) 2 '0'
  let supplyHex := padStart (toHexString supply) 16 '0'
  let _ := mintHeight
  runePrefix ++ etching ++ tickerHex ++ decimalsHex ++ supplyHex

/-- `createRuneTransferPayload` from the service modules:
`"52" ++ "54" ++ tickerHex ++ amountHex`. -/
def createRuneTransferPayload (ticker : String) (amount : ℕ) : String :=
  let runePrefix := "52"
  let transfer := "54"
  let tickerHex := hexOfBytes (utf8Encode ticker)
  let amountHex := padStart (toHexString amount) 16 '0'
  runePrefix ++ transfer ++ tickerHex ++ amountHex

end Service

/-!
## The two versions of the address-derivation / transaction services

`Service0` embeds the `bitcoinjs-lib`-importing version of
`bitcoinChainSignatures` (sha256-based derivation and the three
`create*Transaction` functions); the sha256 primitive is a library
import, so the functions are parameterized over it.  `Service1` embeds
the self-contained version whose derivation uses `hashString`.
-/

/-- A transaction payload as returned by the `create*Transaction`
service functions of the sha256-based module.  Fields absent from a
given payload shape are `none`; number-valued fields that can hold
`NaN` use `Option Int` with `none` for `NaN`. -/
structure ServicePayload where
  type : String
  senderAddress : String
  receiverAddress : String
  amountSatoshis : Option Int
  fee : ℕ
  publicKey : String
  unsignedTxHex : String
  runeTicker : Option String := none
  decimals : Option (Option Int) := none
  mintHeight : Option (Option Int) := none
  runeAmount : Option (Option Int) := none
  opReturnHex : Option String := none
deriving DecidableEq, Repr

namespace Service0

/-- `deriveAddressFromNearAccount` (sha256 version): hashes
`accountId ++ ":" ++ derivationPath` and forms the mock address
`bc1q` + hex of the first 20 hash bytes and the hex public key.  The
sha256 primitive comes from `bitcoinjs-lib` and is a parameter of
the embedding.  The function's `try`/`catch` wraps pure code and
cannot fire. -/
def deriveAddressFromNearAccount (sha256 : String → List ℕ)
    (nearAccountId : String) (derivationPath : String := "bitcoin-1") :
    String × String :=
  let seedHash := sha256 (nearAccountId ++ ":" ++ derivationPath)
  ("bc1q" ++ hexOfBytes (seedHash.take 20), hexOfBytes seedHash)

/-- The satoshi conversion of `createBitcoinTransferTransaction` and
`createTransferRuneTransaction`:
`amount < 1 ? Math.floor(amount * 100000000) : Math.floor(amount)`
(`none` models `NaN`, for which both comparisons and `Math.floor`
yield `NaN`). -/
def btcHeuristicSatoshis (amount : Option ℚ) : Option Int :=
  match amount with
  | none => none
  | some q => some (if q < 1 then ⌊q * 100000000⌋ else ⌊q⌋)

/-- `createBitcoinTransferTransaction`: the simulated transfer payload
with the `< 1` BTC heuristic and the fixed 1000-satoshi fee.  `now`
models `Date.now()` in the simulated unsigned-transaction hex. -/
def createBitcoinTransferTransaction (senderAddress receiverAddress : String)
    (amount : Option ℚ) (publicKey : String) (now : ℕ) : ServicePayload :=
  { type := "bitcoin_transfer"
    senderAddress := senderAddress
    receiverAddress := receiverAddress
    amountSatoshis := btcHeuristicSatoshis amount
    fee := 1000
    publicKey := publicKey
    unsignedTxHex := "simulated_unsigned_tx_" ++ toString now }

/-- `createEtchRuneTransaction`: the simulated Rune-etch payload with
the fixed 10000-satoshi inscription amount, 2000-satoshi fee, and the
hex of the `RUNE_ETCH:ticker:decimals:mintHeight` string. -/
def createEtchRuneTransaction (senderAddress receiverAddress runeTicker : String)
    (decimals : Option Int := some 0) (mintHeight : Option Int := some 840000)
    (publicKey : String := "") (now : ℕ := 0) : ServicePayload :=
  let opReturnData :=
    "RUNE_ETCH:" ++ runeTicker ++ ":" ++ jsNumRepr decimals ++ ":" ++ jsNumRepr mintHeight
  { type := "rune_etch"
    senderAddress := senderAddress
    receiverAddress := receiverAddress
    amountSatoshis := some 10000
    fee := 2000
    runeTicker := some runeTicker
    decimals := some decimals
    mintHeight := some mintHeight
    opReturnHex := some (hexOfBytes (utf8Encode opReturnData))
    publicKey := publicKey
    unsignedTxHex := "simulated_unsigned_rune_etch_tx_" ++ toString now }

/-- `createTransferRuneTransaction`: the simulated Rune-transfer
payload with the `< 1` BTC heuristic, 1500-satoshi fee, and the hex of
the `RUNE_TRANSFER:ticker:runeAmount` string. -/
def createTransferRuneTransaction (senderAddress receiverAddress : String)
    (amount : Option ℚ) (runeTicker : String) (runeAmount : Option Int)
    (publicKey : String) (now : ℕ) : ServicePayload :=
  let opReturnData := "RUNE_TRANSFER:" ++ runeTicker ++ ":" ++ jsNumRepr runeAmount
  { type := "rune_transfer"
    senderAddress := senderAddress
    receiverAddress := receiverAddress
    amountSatoshis := btcHeuristicSatoshis amount
    fee := 1500
    runeTicker := some runeTicker
    runeAmount := some runeAmount
    opReturnHex := some (hexOfBytes (utf8Encode opReturnData))
    publicKey := publicKey
    unsignedTxHex := "simulated_unsigned_rune_transfer_tx_" ++ toString now }

end Service0

namespace Service1

/-- `deriveAddressFromNearAccount` (self-contained version): the mock
address `tb1q` + the first 38 characters of
`hashString(nearAccountId + derivationPath)` and the mock public key
`04` + `hashString(nearAccountId + derivationPath + 'pubkey')`. -/
def deriveAddressFromNearAccount (nearAccountId : String)
    (derivationPath : String := "bitcoin-1") : String × String :=
  ("tb1q" ++ jsSubstring0 (Service.hashString (nearAccountId ++ derivationPath)) 38,
   "04" ++ Service.hashString (nearAccountId ++ derivationPath ++ "pubkey"))

end Service1

/-!
## The API route handlers

`Route` embeds `src/app/api/tools/bitcoin-transaction/route.ts` (the
version that imports the sha256-based service); `Route2` embeds the
older, self-contained version of the same route.  `parseAmount`,
`generateRuneEtchOpReturn` and `generateRuneTransferOpReturn` appear
verbatim in both files and are embedded once.
-/

/-- The query parameters of a `GET /api/tools/bitcoin-transaction`
request, each as returned by `searchParams.get` (`none` = absent). -/
structure Request where
  action : Option String := none
  receiver : Option String := none
  amount : Option String := none
  derivationPath : Option String := none
  runeTicker : Option String := none
  runeAmount : Option String := none
  runeDecimals : Option String := none
  runeMintHeight : Option String := none
  accountId : Option String := none
deriving DecidableEq, Repr

/-- `parseAmount` (identical in `route.ts` and the older route): a
string containing a decimal point is read as BTC and converted with
`Math.floor(parseFloat(amount) * 100000000)`; otherwise the string is
read with `parseInt` as a satoshi count.  `none` models `NaN`. -/
def parseAmount (amount : String) : Option Int :=
  if amount.data.any (· = '.') then
    (parseFloatJS amount).map (fun q => ⌊q * 100000000⌋)
  else parseIntJS amount

/-- `generateRuneEtchOpReturn` (identical in both route files):
`"52" ++ tickerHex ++ decimalsHex ++ heightHex` with 2- and 8-digit
zero padding. -/
def generateRuneEtchOpReturn (ticker : String) (decimals mintHeight : Option Int) :
    String :=
  let runePrefix := "52"
  let tickerHex := hexOfBytes (utf8Encode ticker)
  let decimalsHex := padStart (jsHexRepr decimals) 2 '0'
  let heightHex := padStart (jsHexRepr mintHeight) 8 '0'
  runePrefix ++ tickerHex ++ decimalsHex ++ heightHex

/-- `generateRuneTransferOpReturn` (identical in both route files):
`"52" ++ "54" ++ tickerHex ++ amountHex` with 16-digit zero padding. -/
def generateRuneTransferOpReturn (ticker : String) (amount : Option Int) : String :=
  let runePrefix := "52"
  let transferPrefix := "54"
  let tickerHex := hexOfBytes (utf8Encode ticker)
  let amountHex := padStart (jsHexRepr amount) 16 '0'
  runePrefix ++ transferPrefix ++ tickerHex ++ amountHex

namespace Route

/-- A JSON response of the `route.ts` handler. -/
structure Response where
  status : ℕ
  error : Option String := none
  transactionPayload : Option ServicePayload := none
deriving DecidableEq, Repr

/-- The body of the `try` block of the `route.ts` `GET` handler.  The
handler is parameterized over the imported
`deriveAddressFromNearAccount`, which is `await`ed and may throw
(modelled by `Except`); `ACCOUNT_ID` is the configured default account
and `now` models `Date.now()`. -/
def GETbody (ACCOUNT_ID : String)
    (derive : String → String → Except String (String × String))
    (now : ℕ) (req : Request) : Except String Response :=
  let derivationPath := jsOr req.derivationPath "bitcoin-1"
  let accountId := jsOr req.accountId ACCOUNT_ID
  if accountId.isEmpty then
    .ok ⟨400, some "NEAR account ID is required", none⟩
  else if !truthy req.action then
    .ok ⟨400, some "Action is required", none⟩
  else if !truthy req.receiver then
    .ok ⟨400, some "Receiver address is required", none⟩
  else
    match derive accountId derivationPath with
    | .error e => .error e
    | .ok (senderAddress, publicKey) =>
      let action := req.action.getD ""
      let receiver := req.receiver.getD ""
      if action = "transfer" then
        if !truthy req.amount then
          .ok ⟨400, some "Amount is required for transfer", none⟩
        else
          .ok ⟨200, none, some (Service0.createBitcoinTransferTransaction
            senderAddress receiver (parseFloatJS (req.amount.getD "")) publicKey now)⟩
      else if action = "etch_rune" then
        if !truthy req.runeTicker then
          .ok ⟨400, some "Rune ticker is required for etch_rune", none⟩
        else
          .ok ⟨200, none, some (Service0.createEtchRuneTransaction
            senderAddress receiver (req.runeTicker.getD "")
            (if truthy req.runeDecimals then parseIntJS (req.runeDecimals.getD "")
             else some 0)
            (if truthy req.runeMintHeight then parseIntJS (req.runeMintHeight.getD "")
             else some 840000)
            publicKey now)⟩
      else if action = "transfer_rune" then
        if !(truthy req.amount && truthy req.runeTicker && truthy req.runeAmount) then
          .ok ⟨400, some "Amount, rune ticker, and rune amount are required for transfer_rune",
               none⟩
        else
          .ok ⟨200, none, some (Service0.createTransferRuneTransaction
            senderAddress receiver (parseFloatJS (req.amount.getD ""))
            (req.runeTicker.getD "") (parseIntJS (req.runeAmount.getD ""))
            publicKey now)⟩
      else
        .ok ⟨400, some ("Unsupported action: " ++ action), none⟩

/-- The `route.ts` `GET` handler: the `try` body, with the `catch`
clause turning any thrown error into a 500 response carrying
`error.message || 'Failed to create transaction'`. -/
def GET (ACCOUNT_ID : String)
    (derive : String → String → Except String (String × String))
    (now : ℕ) (req : Request) : Response :=
  match GETbody ACCOUNT_ID derive now req with
  | .ok r => r
  | .error msg =>
    ⟨500, some (if msg.isEmpty then "Failed to create transaction" else msg), none⟩

end Route

namespace Route2

/-- The `transactionPayload` object built by the older route handler.
`runeTicker` / `runeAmount` store the raw nullable query parameter
(outer `Option` = field presence, inner = nullability); the
`amountSatoshis` number may be `NaN` (inner `none`). -/
structure Payload where
  nearAccountId : String
  derivationPath : String
  receiver : String
  action : Option String := none
  amountSatoshis : Option (Option Int) := none
  opReturnHex : Option String := none
  runeTicker : Option (Option String) := none
  runeDecimals : Option String := none
  runeAmount : Option (Option String) := none
deriving DecidableEq, Repr

/-- A JSON response of the older route handler. -/
structure Response where
  status : ℕ
  error : Option String := none
  transactionPayload : Option Payload := none
  message : Option String := none
  instructions : Option String := none
deriving DecidableEq, Repr

/-- The older `GET` handler: defaults `action` to `"transfer"`,
validates per action, and builds the payload locally.  Its `try` body
is pure, so the `catch` clause (500 with a fixed generic message)
is unreachable in the embedding. -/
def GET (ACCOUNT_ID : String) (req : Request) : Response :=
  let action := jsOr req.action "transfer"
  let derivationPath := jsOr req.derivationPath "bitcoin-1"
  let runeDecimals := jsOr req.runeDecimals "0"
  if !truthy req.receiver then
    ⟨400, some "Receiver address is required", none, none, none⟩
  else if !truthy req.amount && (action = "transfer" || action = "transfer_rune") then
    ⟨400, some "Amount is required for transfers", none, none, none⟩
  else if action = "etch_rune" && (!truthy req.runeTicker || !truthy req.runeMintHeight) then
    ⟨400, some "Rune ticker and mint height are required for etching", none, none, none⟩
  else if action = "transfer_rune" && (!truthy req.runeTicker || !truthy req.runeAmount) then
    ⟨400, some "Rune ticker and amount are required for rune transfers", none, none, none⟩
  else
    let base : Payload :=
      { nearAccountId := ACCOUNT_ID
        derivationPath := derivationPath
        receiver := req.receiver.getD "" }
    let payload : Payload :=
      if action = "transfer" then
        { base with
          action := some "transfer"
          amountSatoshis := some (parseAmount (jsOr req.amount "0")) }
      else if action = "etch_rune" then
        { base with
          action := some "etch_rune"
          amountSatoshis := some (some 10000)
          opReturnHex := some (generateRuneEtchOpReturn (jsOr req.runeTicker "")
            (parseIntJS runeDecimals) (parseIntJS (jsOr req.runeMintHeight "0")))
          runeTicker := some req.runeTicker
          runeDecimals := some runeDecimals }
      else if action = "transfer_rune" then
        { base with
          action := some "transfer_rune"
          amountSatoshis := some (parseAmount (jsOr req.amount "0"))
          opReturnHex := some (generateRuneTransferOpReturn (jsOr req.runeTicker "")
            (parseAmount (jsOr req.runeAmount "0")))
          runeTicker := some req.runeTicker
          runeAmount := some req.runeAmount }
      else base
    ⟨200, none, some payload,
     some ("Bitcoin " ++ action ++ " transaction payload created successfully"),
     some "To sign and broadcast this transaction, use the NEAR Chain Signatures service with the provided derivation path."⟩

end Route2

/-- The composition actually shipped: `route.ts` calling the sha256
version of `deriveAddressFromNearAccount`, whose body is pure and
never throws. -/
def okDerive (sha256 : String → List ℕ) :
    String → String → Except String (String × String) :=
  fun a p => .ok (Service0.deriveAddressFromNearAccount sha256 a p)

/-!
## Properties of `parseAmount` (claim C1 and supporting lemmas)
-/

theorem isDigit_ne_minus {c : Char} (h : isDigit c = true) : c ≠ '-' := by
  intro heq
  rw [heq] at h
  exact absurd h (by decide)

theorem isDigit_ne_plus {c : Char} (h : isDigit c = true) : c ≠ '+' := by
  intro heq
  rw [heq] at h
  exact absurd h (by decide)

theorem isDigit_ne_dot {c : Char} (h : isDigit c = true) : c ≠ '.' := by
  intro heq
  rw [heq] at h
  exact absurd h (by decide)

/-- On an all-digit integer part and all-digit fraction part,
`parseFloatJS` returns the exact denoted decimal value. -/
theorem parseFloatJS_decimal (a b : List Char) (ha : a ≠ [])
    (hda : ∀ c ∈ a, isDigit c = true) (hdb : ∀ c ∈ b, isDigit c = true) :
    parseFloatJS ⟨a ++ '.' :: b⟩ = some (decimalValue a b) := by
  obtain ⟨c, a', rfl⟩ : ∃ c a', a = c :: a' := by
    cases a with
    | nil => exact absurd rfl ha
    | cons c a' => exact ⟨c, a', rfl⟩
  have hc : isDigit c = true := hda c (List.mem_cons_self _ _)
  have htake : ((c :: a') ++ '.' :: b).takeWhile isDigit = c :: a' := by
    rw [List.takeWhile_append_of_pos hda]
    simp [List.takeWhile_cons_of_neg, isDigit]
  have hdrop : ((c :: a') ++ '.' :: b).dropWhile isDigit = '.' :: b := by
    rw [List.dropWhile_append_of_pos hda]
    simp [List.dropWhile_cons_of_neg, isDigit]
  have hbody : parseFloatCore ((c :: a') ++ '.' :: b) = some (decimalValue (c :: a') b) := by
    unfold parseFloatCore
    rw [htake, hdrop]
    simp only [if_pos rfl]
    rw [List.takeWhile_eq_self_iff.mpr (by intro x hx; exact hdb x hx)]
    simp [decimalValue]
  show parseFloatJS ⟨c :: (a' ++ '.' :: b)⟩ = _
  unfold parseFloatJS
  simp only [if_neg (isDigit_ne_minus hc), if_neg (isDigit_ne_plus hc)]
  exact hbody

/-- On an all-digit string, `parseIntJS` returns the denoted integer. -/
theorem parseIntJS_digits (a : List Char) (ha : a ≠ [])
    (hda : ∀ c ∈ a, isDigit c = true) :
    parseIntJS ⟨a⟩ = some (natFromDigits a : ℤ) := by
  obtain ⟨c, a', rfl⟩ : ∃ c a', a = c :: a' := by
    cases a with
    | nil => exact absurd rfl ha
    | cons c a' => exact ⟨c, a', rfl⟩
  have hc : isDigit c = true := hda c (List.mem_cons_self _ _)
  unfold parseIntJS
  simp only [if_neg (isDigit_ne_minus hc), if_neg (isDigit_ne_plus hc)]
  unfold parseDigitPrefix
  rw [List.takeWhile_eq_self_iff.mpr (by intro x hx; exact hda x hx)]
  simp

/-- `parseAmount` on a digits-dot-digits string: the decimal-point
branch fires and floors the exact value scaled by `10 ^ 8`. -/
theorem parseAmount_decimal (a b : List Char) (ha : a ≠ [])
    (hda : ∀ c ∈ a, isDigit c = true) (hdb : ∀ c ∈ b, isDigit c = true) :
    parseAmount ⟨a ++ '.' :: b⟩ = some ⌊decimalValue a b * 100000000⌋ := by
  unfold parseAmount
  have hany : (String.mk (a ++ '.' :: b)).data.any (fun c => decide (c = '.')) = true := by
    simp only [List.any_eq_true]
    exact ⟨'.', by simp, by simp⟩
  rw [if_pos hany, parseFloatJS_decimal a b ha hda hdb]
  rfl

/-- `parseAmount` on an all-digit string: the `parseInt` branch fires
and returns the denoted integer unchanged. -/
theorem parseAmount_int (a : List Char) (ha : a ≠ [])
    (hda : ∀ c ∈ a, isDigit c = true) :
    parseAmount ⟨a⟩ = some (natFromDigits a : ℤ) := by
  unfold parseAmount
  have hany : (String.mk a).data.any (fun c => decide (c = '.')) = false := by
    simp only [List.any_eq_false]
    intro x hx
    simpa using isDigit_ne_dot (hda x hx)
  rw [if_neg (by simp [hany]), parseIntJS_digits a ha hda]

/-- C1: for every amount string with a decimal point that denotes a
non-negative decimal number (digit characters `a`, a point, digit
characters `b`), `parseAmount` returns `⌊value * 100000000⌋`; for
every amount string without a decimal point that denotes a
non-negative integer (digit characters `a`), `parseAmount` returns
that integer unchanged. -/
theorem parseAmount_spec :
    (∀ (a b : List Char), a ≠ [] → (∀ c ∈ a, isDigit c = true) →
      (∀ c ∈ b, isDigit c = true) →
      parseAmount ⟨a ++ '.' :: b⟩ = some ⌊decimalValue a b * 100000000⌋) ∧
    (∀ (a : List Char), a ≠ [] → (∀ c ∈ a, isDigit c = true) →
      parseAmount ⟨a⟩ = some (natFromDigits a : ℤ)) :=
  ⟨parseAmount_decimal, parseAmount_int⟩

/-- Witness for C1: `parseAmount "0.5" = 50000000` and
`parseAmount "7" = 7`, through `parseAmount_spec` at the concrete
digit lists. -/
theorem parseAmount_spec_witness :
    parseAmount "0.5" = some 50000000 ∧ parseAmount "7" = some 7 := by
  constructor
  · have h := parseAmount_spec.1 ['0'] ['5'] (by decide)
      (by decide) (by decide)
    rw [show ("0.5" : String) = ⟨['0'] ++ '.' :: ['5']⟩ from rfl, h]
    have h0 : ('0'.toNat : ℕ) = 48 := rfl
    have h5 : ('5'.toNat : ℕ) = 53 := rfl
    norm_num [decimalValue, natFromDigits, digitVal, h0, h5]
  · have h := parseAmount_spec.2 ['7'] (by decide) (by decide)
    rw [show ("7" : String) = ⟨['7']⟩ from rfl, h]
    have h7 : ('7'.toNat : ℕ) = 55 := rfl
    norm_num [natFromDigits, digitVal, h7]

/-!
## Shape of `hashString` and the mock address (claim C9)
-/

theorem extendLoop_length_ge (h : Int) :
    ∀ (n : ℕ) (acc : List Char), 64 - acc.length ≤ n →
      64 ≤ (Service.extendLoop h acc).length := by
  intro n
  induction n with
  | zero =>
    intro acc hacc
    rw [Service.extendLoop]
    rw [if_neg (by omega)]
    omega
  | succ n ih =>
    intro acc hacc
    rw [Service.extendLoop]
    split
    · rename_i hlt
      apply ih
      have h1 : 1 ≤ (hexList ((xor32 h acc.length).natAbs)).length :=
        List.length_pos.mpr (hexList_ne_nil _)
      simp only [List.length_append]
      omega
    · omega

theorem extendLoop_mem_isLowerHex (h : Int) :
    ∀ (n : ℕ) (acc : List Char), 64 - acc.length ≤ n →
      (∀ c ∈ acc, isLowerHex c = true) →
      ∀ c ∈ Service.extendLoop h acc, isLowerHex c = true := by
  intro n
  induction n with
  | zero =>
    intro acc hacc hhex
    rw [Service.extendLoop, if_neg (by omega)]
    exact hhex
  | succ n ih =>
    intro acc hacc hhex
    rw [Service.extendLoop]
    split
    · rename_i hlt
      apply ih
      · have h1 : 1 ≤ (hexList ((xor32 h acc.length).natAbs)).length :=
          List.length_pos.mpr (hexList_ne_nil _)
        simp only [List.length_append]
        omega
      · intro c hc
        rcases List.mem_append.mp hc with h1 | h2
        · exact hhex c h1
        · exact hexList_mem_isLowerHex _ c h2
    · exact hhex

/-- `hashString` always returns exactly 64 characters, all of them
lowercase hexadecimal digits. -/
theorem hashString_shape (s : String) :
    (Service.hashString s).length = 64 ∧
      ∀ c ∈ (Service.hashString s).data, isLowerHex c = true := by
  unfold Service.hashString jsSubstring0
  constructor
  · show (List.take 64
      ((String.mk (Service.extendLoop (Service.hashLoop (s.data.map Char.toNat) 0)
        (hexList (Service.hashLoop (s.data.map Char.toNat) 0).natAbs))).data)).length = 64
    rw [show (String.mk (Service.extendLoop (Service.hashLoop (s.data.map Char.toNat) 0)
        (hexList (Service.hashLoop (s.data.map Char.toNat) 0).natAbs))).data =
      Service.extendLoop (Service.hashLoop (s.data.map Char.toNat) 0)
        (hexList (Service.hashLoop (s.data.map Char.toNat) 0).natAbs) from rfl]
    rw [List.length_take]
    have := extendLoop_length_ge (Service.hashLoop (s.data.map Char.toNat) 0)
      (64 - (hexList (Service.hashLoop (s.data.map Char.toNat) 0).natAbs).length)
      (hexList (Service.hashLoop (s.data.map Char.toNat) 0).natAbs) (le_refl _)
    omega
  · intro c hc
    have hc' : c ∈ Service.extendLoop (Service.hashLoop (s.data.map Char.toNat) 0)
        (hexList (Service.hashLoop (s.data.map Char.toNat) 0).natAbs) :=
      List.take_subset 64 _ hc
    exact extendLoop_mem_isLowerHex _ (64 - _) _ (le_refl _)
      (fun c hc => hexList_mem_isLowerHex _ c hc) c hc'

/-- C9: `hashString` terminates (it is a total function of the
embedding) and returns a string of exactly 64 lowercase hexadecimal
characters; consequently the mock address built from it by the
self-contained service is always the 4-character prefix `tb1q`
followed by a 38-character hex suffix. -/
theorem hashString_and_address_shape (s a p : String) :
    (Service.hashString s).length = 64 ∧
    (∀ c ∈ (Service.hashString s).data, isLowerHex c = true) ∧
    (Service1.deriveAddressFromNearAccount a p).1.length = 42 ∧
    (Service1.deriveAddressFromNearAccount a p).1.data.take 4 = ['t', 'b', '1', 'q'] ∧
    ∀ c ∈ (Service1.deriveAddressFromNearAccount a p).1.data.drop 4,
      isLowerHex c = true := by
  obtain ⟨hlen, hhex⟩ := hashString_shape s
  obtain ⟨hlen', hhex'⟩ := hashString_shape (a ++ p)
  have hdata : (Service1.deriveAddressFromNearAccount a p).1.data =
      "tb1q".data ++ (Service.hashString (a ++ p)).data.take 38 := by
    show ("tb1q" ++ jsSubstring0 (Service.hashString (a ++ p)) 38).data = _
    rw [String.data_append]
    rfl
  have hlen64 : (Service.hashString (a ++ p)).data.length = 64 := hlen'
  refine ⟨hlen, hhex, ?_, ?_, ?_⟩
  · show (Service1.deriveAddressFromNearAccount a p).1.data.length = 42
    rw [hdata]
    simp [List.length_take, hlen64]
  · rw [hdata]
    rfl
  · intro c hc
    rw [hdata] at hc
    rw [show ("tb1q".data : List Char) = ['t', 'b', '1', 'q'] from rfl] at hc
    simp only [List.drop_append_eq_append_drop, List.length_cons, List.length_nil] at hc
    have : c ∈ (Service.hashString (a ++ p)).data.take 38 := by
      simpa using hc
    exact hhex' c (List.take_subset _ _ this)

/-- Witness for C9 at the empty string and concrete account inputs. -/
theorem hashString_and_address_shape_witness :
    (Service.hashString "").length = 64 ∧
    (∀ c ∈ (Service.hashString "").data, isLowerHex c = true) ∧
    (Service1.deriveAddressFromNearAccount "alice.near" "bitcoin-1").1.length = 42 ∧
    (Service1.deriveAddressFromNearAccount "alice.near" "bitcoin-1").1.data.take 4 =
      ['t', 'b', '1', 'q'] ∧
    ∀ c ∈ (Service1.deriveAddressFromNearAccount "alice.near" "bitcoin-1").1.data.drop 4,
      isLowerHex c = true :=
  hashString_and_address_shape "" "alice.near" "bitcoin-1"

/-!
## Determinism of address derivation (claim C4)
-/

/-- C4: both versions of `deriveAddressFromNearAccount` are
deterministic: two calls with the same `(accountId, derivationPath)`
pair (and, for the sha256 version, the same hash primitive) return
the same address and the same public key.  The embedded bodies read
no ambient state — no clock, randomness, or mutable globals — so the
result is a function of the inputs alone. -/
theorem deriveAddress_deterministic (sha256 : String → List ℕ)
    (a p a' p' : String) (ha : a = a') (hp : p = p') :
    Service1.deriveAddressFromNearAccount a p =
      Service1.deriveAddressFromNearAccount a' p' ∧
    Service0.deriveAddressFromNearAccount sha256 a p =
      Service0.deriveAddressFromNearAccount sha256 a' p' := by
  subst ha
  subst hp
  exact ⟨rfl, rfl⟩

/-- Witness for C4 at concrete inputs and a concrete hash primitive. -/
theorem deriveAddress_deterministic_witness :
    Service1.deriveAddressFromNearAccount "alice.near" "bitcoin-1" =
      Service1.deriveAddressFromNearAccount "alice.near" "bitcoin-1" ∧
    Service0.deriveAddressFromNearAccount (fun _ => [0]) "alice.near" "bitcoin-1" =
      Service0.deriveAddressFromNearAccount (fun _ => [0]) "alice.near" "bitcoin-1" :=
  deriveAddress_deterministic (fun _ => [0]) "alice.near" "bitcoin-1"
    "alice.near" "bitcoin-1" rfl rfl

/-!
## Validation behaviour of the route handlers (claims C5–C8)
-/

theorem route2_missing_receiver (A : String) (req : Request)
    (h : truthy req.receiver = false) :
    (Route2.GET A req).status = 400 ∧ (Route2.GET A req).error.isSome = true := by
  unfold Route2.GET
  simp [h]

theorem route_missing_receiver (A : String)
    (derive : String → String → Except String (String × String)) (now : ℕ)
    (req : Request) (h : truthy req.receiver = false) :
    (Route.GET A derive now req).status = 400 ∧
      (Route.GET A derive now req).error.isSome = true := by
  unfold Route.GET Route.GETbody
  by_cases h1 : (jsOr req.accountId A).isEmpty
  · simp [h1]
  · by_cases h2 : truthy req.action
    · simp [h1, h2, h]
    · simp [h1, h2]

theorem route2_missing_amount (A : String) (req : Request)
    (ha : jsOr req.action "transfer" = "transfer" ∨
      jsOr req.action "transfer" = "transfer_rune")
    (hm : truthy req.amount = false) :
    (Route2.GET A req).status = 400 ∧ (Route2.GET A req).error.isSome = true := by
  unfold Route2.GET
  by_cases hr : truthy req.receiver
  · rcases ha with ha | ha <;> simp [hr, hm, ha]
  · simp [hr]

theorem route_missing_amount (A : String) (sha256 : String → List ℕ) (now : ℕ)
    (req : Request)
    (ha : req.action = some "transfer" ∨ req.action = some "transfer_rune")
    (hm : truthy req.amount = false) :
    (Route.GET A (okDerive sha256) now req).status = 400 ∧
      (Route.GET A (okDerive sha256) now req).error.isSome = true := by
  unfold Route.GET Route.GETbody okDerive
  by_cases h1 : (jsOr req.accountId A).isEmpty
  · simp [h1]
  · by_cases hr : truthy req.receiver <;>
      rcases ha with ha | ha <;>
      simp [h1, hr, ha, hm,
        show truthy (some "transfer") = true from rfl,
        show truthy (some "transfer_rune") = true from rfl]

/-- C5: a request without a `receiver` gets a 400 response with an
error field from both route handlers, whatever the `action`; a
request with effective action `transfer` or `transfer_rune` and no
`amount` gets a 400 response with an error field from both handlers. -/
theorem missing_required_params_400 (A : String) (sha256 : String → List ℕ)
    (now : ℕ) (req : Request) :
    (truthy req.receiver = false →
      (Route2.GET A req).status = 400 ∧ (Route2.GET A req).error.isSome = true ∧
      (Route.GET A (okDerive sha256) now req).status = 400 ∧
      (Route.GET A (okDerive sha256) now req).error.isSome = true) ∧
    (truthy req.amount = false →
      ((jsOr req.action "transfer" = "transfer" ∨
          jsOr req.action "transfer" = "transfer_rune") →
        (Route2.GET A req).status = 400 ∧ (Route2.GET A req).error.isSome = true) ∧
      ((req.action = some "transfer" ∨ req.action = some "transfer_rune") →
        (Route.GET A (okDerive sha256) now req).status = 400 ∧
        (Route.GET A (okDerive sha256) now req).error.isSome = true)) := by
  refine ⟨fun h => ?_, fun hm => ⟨fun ha => ?_, fun ha => ?_⟩⟩
  · obtain ⟨h1, h2⟩ := route2_missing_receiver A req h
    obtain ⟨h3, h4⟩ := route_missing_receiver A (okDerive sha256) now req h
    exact ⟨h1, h2, h3, h4⟩
  · exact route2_missing_amount A req ha hm
  · exact route_missing_amount A sha256 now req ha hm

/-- Witness for C5: a concrete transfer request with no receiver and a
concrete transfer request with a receiver but no amount. -/
theorem missing_required_params_400_witness :
    ((Route2.GET "acct.near" { action := some "transfer", amount := some "5" }).status
        = 400 ∧
      (Route2.GET "acct.near"
        { action := some "transfer", amount := some "5" }).error.isSome = true) ∧
    ((Route2.GET "acct.near"
        { action := some "transfer", receiver := some "r" }).status = 400 ∧
      (Route2.GET "acct.near"
        { action := some "transfer", receiver := some "r" }).error.isSome = true) := by
  constructor
  · obtain ⟨h1, h2, _, _⟩ :=
      (missing_required_params_400 "acct.near" (fun _ => [0]) 0
        { action := some "transfer", amount := some "5" }).1 (by decide)
    exact ⟨h1, h2⟩
  · exact (((missing_required_params_400 "acct.near" (fun _ => [0]) 0
      { action := some "transfer", receiver := some "r" }).2 (by decide)).1
      (by left; decide))

theorem route2_default_transfer (A : String) (req : Request)
    (ha : req.action = none) (hr : truthy req.receiver = true)
    (hm : truthy req.amount = true) :
    (Route2.GET A req).status = 200 ∧
      (Route2.GET A req).transactionPayload.map (·.action) = some (some "transfer") := by
  unfold Route2.GET
  simp [ha, hr, hm, jsOr]

theorem route_missing_action (A : String)
    (derive : String → String → Except String (String × String)) (now : ℕ)
    (req : Request) (ha : req.action = none) :
    (Route.GET A derive now req).status = 400 ∧
      (Route.GET A derive now req).error.isSome = true := by
  unfold Route.GET Route.GETbody
  by_cases h1 : (jsOr req.accountId A).isEmpty
  · simp [h1]
  · simp [h1, ha, truthy]

/-- C6 (amended): on a request without an `action` parameter but with
`receiver` and `amount` present, the older handler defaults the action
to `transfer` and answers 200 with a transfer payload, while the
`route.ts` handler rejects the request with a 400 error instead of
applying the default. -/
theorem action_default_split (A : String)
    (derive : String → String → Except String (String × String)) (now : ℕ)
    (req : Request) (ha : req.action = none) :
    (truthy req.receiver = true → truthy req.amount = true →
      (Route2.GET A req).status = 200 ∧
      (Route2.GET A req).transactionPayload.map (·.action) = some (some "transfer")) ∧
    ((Route.GET A derive now req).status = 400 ∧
      (Route.GET A derive now req).error.isSome = true) :=
  ⟨fun hr hm => route2_default_transfer A req ha hr hm,
   route_missing_action A derive now req ha⟩

/-- Witness for the amended C6 at a concrete request. -/
theorem action_default_split_witness :
    ((Route2.GET "acct.near" { receiver := some "r", amount := some "5" }).status = 200 ∧
      (Route2.GET "acct.near"
        { receiver := some "r", amount := some "5" }).transactionPayload.map (·.action) =
        some (some "transfer")) ∧
    ((Route.GET "acct.near" (okDerive (fun _ => [0])) 0
        { receiver := some "r", amount := some "5" }).status = 400 ∧
      (Route.GET "acct.near" (okDerive (fun _ => [0])) 0
        { receiver := some "r", amount := some "5" }).error.isSome = true) :=
  let h := action_default_split "acct.near" (okDerive (fun _ => [0])) 0
    { receiver := some "r", amount := some "5" } rfl
  ⟨h.1 rfl rfl, h.2⟩

/-- Counterexample to C6 as stated: on a request with no `action` but
with `receiver` and `amount` present, the `route.ts` handler does not
treat the request as a transfer; it returns status 400, not 200. -/
theorem route_no_action_default_counterexample :
    (Route.GET "acct.near" (okDerive (fun _ => [0])) 0
      { receiver := some "r", amount := some "5" }).status = 400 ∧
    (400 : ℕ) ≠ 200 :=
  ⟨rfl, by decide⟩

theorem route_etch_defaults (A : String) (sha256 : String → List ℕ) (now : ℕ)
    (req : Request) (hacct : (jsOr req.accountId A).isEmpty = false)
    (ha : req.action = some "etch_rune") (hr : truthy req.receiver = true)
    (ht : truthy req.runeTicker = true) (hd : req.runeDecimals = none)
    (hh : req.runeMintHeight = none) :
    (Route.GET A (okDerive sha256) now req).status = 200 ∧
    (Route.GET A (okDerive sha256) now req).transactionPayload.map (·.decimals) =
      some (some (some 0)) ∧
    (Route.GET A (okDerive sha256) now req).transactionPayload.map (·.mintHeight) =
      some (some (some 840000)) := by
  unfold Route.GET Route.GETbody okDerive
  simp [hacct, ha, hr, ht, hd, hh,
    show truthy (some "etch_rune") = true from rfl,
    show truthy none = false from rfl,
    Service0.createEtchRuneTransaction]

/-- The older handler rejects an etch request without `runeMintHeight`
(there is no 840000 default on this path). -/
theorem route2_etch_requires_height (A : String) (req : Request)
    (ha : jsOr req.action "transfer" = "etch_rune") (hh : req.runeMintHeight = none) :
    (Route2.GET A req).status = 400 ∧ (Route2.GET A req).error.isSome = true := by
  unfold Route2.GET
  simp [ha, hh, truthy]
  split <;> simp

/-- C7 (amended): on an etch request with `receiver` and `runeTicker`
present but `runeDecimals` and `runeMintHeight` absent, the `route.ts`
handler answers 200 with decimals 0 and mint height 840000 (the
documented defaults), while the older handler instead rejects the
request with a 400 error because it requires `runeMintHeight`. -/
theorem etch_defaults_split (A : String) (sha256 : String → List ℕ) (now : ℕ)
    (req : Request) (ha : req.action = some "etch_rune")
    (hr : truthy req.receiver = true) (ht : truthy req.runeTicker = true)
    (hd : req.runeDecimals = none) (hh : req.runeMintHeight = none) :
    ((jsOr req.accountId A).isEmpty = false →
      (Route.GET A (okDerive sha256) now req).status = 200 ∧
      (Route.GET A (okDerive sha256) now req).transactionPayload.map (·.decimals) =
        some (some (some 0)) ∧
      (Route.GET A (okDerive sha256) now req).transactionPayload.map (·.mintHeight) =
        some (some (some 840000))) ∧
    ((Route2.GET A req).status = 400 ∧ (Route2.GET A req).error.isSome = true) :=
  ⟨fun hacct => route_etch_defaults A sha256 now req hacct ha hr ht hd hh,
   route2_etch_requires_height A req (by rw [ha]; rfl) hh⟩

/-- Witness for the amended C7 at a concrete etch request. -/
theorem etch_defaults_split_witness :
    ((Route.GET "acct.near" (okDerive (fun _ => [0])) 0
        { action := some "etch_rune", receiver := some "r",
          runeTicker := some "ABC" }).status = 200 ∧
      (Route.GET "acct.near" (okDerive (fun _ => [0])) 0
        { action := some "etch_rune", receiver := some "r",
          runeTicker := some "ABC" }).transactionPayload.map (·.decimals) =
        some (some (some 0)) ∧
      (Route.GET "acct.near" (okDerive (fun _ => [0])) 0
        { action := some "etch_rune", receiver := some "r",
          runeTicker := some "ABC" }).transactionPayload.map (·.mintHeight) =
        some (some (some 840000))) ∧
    ((Route2.GET "acct.near"
        { action := some "etch_rune", receiver := some "r",
          runeTicker := some "ABC" }).status = 400 ∧
      (Route2.GET "acct.near"
        { action := some "etch_rune", receiver := some "r",
          runeTicker := some "ABC" }).error.isSome = true) :=
  let h := etch_defaults_split "acct.near" (fun _ => [0]) 0
    { action := some "etch_rune", receiver := some "r", runeTicker := some "ABC" }
    rfl rfl rfl rfl rfl
  ⟨h.1 rfl, h.2⟩

/-- Counterexample to C7 as stated: the older handler returns 400, not
200, on an etch request with `receiver` and `runeTicker` but no
`runeMintHeight`. -/
theorem route2_etch_no_default_counterexample :
    (Route2.GET "acct.near"
      { action := some "etch_rune", receiver := some "r",
        runeTicker := some "ABC" }).status = 400 ∧
    (400 : ℕ) ≠ 200 :=
  ⟨rfl, by decide⟩

theorem mk_cons_isEmpty_false (c : Char) (l : List Char) :
    (String.mk (c :: l)).isEmpty = false := by
  cases h : (String.mk (c :: l)).isEmpty
  · rfl
  · exfalso
    have h2 := congrArg String.data ((String.isEmpty_iff _).mp h)
    simp at h2

/-- C8 (amended): when the processing inside the `try` block of the
`route.ts` handler raises an error, the `catch` clause converts it into
a 500 response whose error field carries the exception's own message,
falling back to the generic `Failed to create transaction` only when
that message is empty; the exception is never re-raised to the caller. -/
theorem route_catch_500 (A : String)
    (derive : String → String → Except String (String × String)) (now : ℕ)
    (req : Request) (m : String)
    (h : Route.GETbody A derive now req = .error m) :
    Route.GET A derive now req =
      ⟨500, some (if m.isEmpty then "Failed to create transaction" else m), none⟩ := by
  unfold Route.GET
  rw [h]

/-- Witness for the amended C8: a derivation function that throws
`boom` makes the handler answer 500 with `boom` in the error field. -/
theorem route_catch_500_witness :
    Route.GET "acct.near" (fun _ _ => Except.error "boom") 0
      { action := some "transfer", receiver := some "r", amount := some "1" } =
      ⟨500, some "boom", none⟩ := by
  have h := route_catch_500 "acct.near" (fun _ _ => Except.error "boom") 0
    { action := some "transfer", receiver := some "r", amount := some "1" } "boom" rfl
  simpa using h

/-- Counterexample to C8 as stated: the 500 response of the `route.ts`
handler does not carry a generic message — it surfaces the exception's
own message (`boom` here, not `Failed to create transaction`). -/
theorem route_500_message_counterexample :
    (Route.GET "acct.near" (fun _ _ => Except.error "boom") 0
      { action := some "transfer", receiver := some "r", amount := some "1" }).status
      = 500 ∧
    (Route.GET "acct.near" (fun _ _ => Except.error "boom") 0
      { action := some "transfer", receiver := some "r", amount := some "1" }).error
      = some "boom" ∧
    some "boom" ≠ some "Failed to create transaction" :=
  ⟨rfl, rfl, by decide⟩

/-!
## Satoshi interpretation of the `amount` parameter (claim C2)
-/

theorem route2_transfer_amountSats (A : String) (req : Request) (s : String)
    (ha : req.action = some "transfer") (hr : truthy req.receiver = true)
    (hm : req.amount = some s) (hs : s.isEmpty = false) :
    (Route2.GET A req).transactionPayload.map (·.amountSatoshis) =
      some (some (parseAmount s)) := by
  unfold Route2.GET
  have hts : truthy (some s) = true := by simp [truthy, hs]
  simp [ha, hr, hm, hts, hs, jsOr,
    show ("transfer" : String).isEmpty = false from rfl]

theorem route_transfer_amountSats (A : String) (sha256 : String → List ℕ)
    (now : ℕ) (req : Request) (s : String) (q : ℚ)
    (hacct : (jsOr req.accountId A).isEmpty = false)
    (ha : req.action = some "transfer") (hr : truthy req.receiver = true)
    (hm : req.amount = some s) (hs : s.isEmpty = false)
    (hq : parseFloatJS s = some q) :
    (Route.GET A (okDerive sha256) now req).transactionPayload.map (·.amountSatoshis) =
      some (some (if q < 1 then ⌊q * 100000000⌋ else ⌊q⌋)) := by
  unfold Route.GET Route.GETbody okDerive
  have hts : truthy (some s) = true := by simp [truthy, hs]
  simp [hacct, ha, hr, hm, hts, hq,
    show truthy (some "transfer") = true from rfl,
    Service0.createBitcoinTransferTransaction, Service0.btcHeuristicSatoshis]

/-- C2 (amended): for a transfer request, the older handler's
`amountSatoshis` follows the decimal-point rule (amounts with a
decimal point are read as BTC and floored after scaling by `10 ^ 8`,
amounts without one are passed through unchanged); the `route.ts`
handler instead applies a magnitude heuristic to the parsed amount
value: values `< 1` are read as BTC, values `≥ 1` are floored and read
as already being satoshis, regardless of the decimal point. -/
theorem transfer_amount_interpretation :
    (∀ (A : String) (req : Request) (a b : List Char),
      req.action = some "transfer" → truthy req.receiver = true →
      req.amount = some ⟨a ++ '.' :: b⟩ → a ≠ [] →
      (∀ c ∈ a, isDigit c = true) → (∀ c ∈ b, isDigit c = true) →
      (Route2.GET A req).transactionPayload.map (·.amountSatoshis) =
        some (some (some ⌊decimalValue a b * 100000000⌋))) ∧
    (∀ (A : String) (req : Request) (a : List Char),
      req.action = some "transfer" → truthy req.receiver = true →
      req.amount = some ⟨a⟩ → a ≠ [] → (∀ c ∈ a, isDigit c = true) →
      (Route2.GET A req).transactionPayload.map (·.amountSatoshis) =
        some (some (some (natFromDigits a : ℤ)))) ∧
    (∀ (A : String) (sha256 : String → List ℕ) (now : ℕ) (req : Request)
      (s : String) (q : ℚ),
      (jsOr req.accountId A).isEmpty = false →
      req.action = some "transfer" → truthy req.receiver = true →
      req.amount = some s → s.isEmpty = false → parseFloatJS s = some q →
      (Route.GET A (okDerive sha256) now req).transactionPayload.map
          (·.amountSatoshis) =
        some (some (if q < 1 then ⌊q * 100000000⌋ else ⌊q⌋))) := by
  refine ⟨fun A req a b ha hr hm hne hda hdb => ?_,
          fun A req a ha hr hm hne hda => ?_,
          fun A sha256 now req s q hacct ha hr hm hs hq =>
            route_transfer_amountSats A sha256 now req s q hacct ha hr hm hs hq⟩
  · obtain ⟨c, a', rfl⟩ : ∃ c a', a = c :: a' := by
      cases a with
      | nil => exact absurd rfl hne
      | cons c a' => exact ⟨c, a', rfl⟩
    rw [route2_transfer_amountSats A req _ ha hr hm (mk_cons_isEmpty_false _ _),
      parseAmount_decimal _ b hne hda hdb]
  · obtain ⟨c, a', rfl⟩ : ∃ c a', a = c :: a' := by
      cases a with
      | nil => exact absurd rfl hne
      | cons c a' => exact ⟨c, a', rfl⟩
    rw [route2_transfer_amountSats A req _ ha hr hm (mk_cons_isEmpty_false _ _),
      parseAmount_int _ hne hda]

/-- Witness for the amended C2 at the concrete amounts `0.5` (older
handler, decimal-point rule) and `1.5` (`route.ts` handler, magnitude
heuristic). -/
theorem transfer_amount_interpretation_witness :
    (Route2.GET "acct.near"
      { action := some "transfer", receiver := some "r",
        amount := some "0.5" }).transactionPayload.map (·.amountSatoshis) =
      some (some (some 50000000)) ∧
    (Route.GET "acct.near" (okDerive (fun _ => [0])) 0
      { action := some "transfer", receiver := some "r",
        amount := some "1.5" }).transactionPayload.map (·.amountSatoshis) =
      some (some 1) := by
  constructor
  · have h := transfer_amount_interpretation.1 "acct.near"
      { action := some "transfer", receiver := some "r", amount := some "0.5" }
      ['0'] ['5'] rfl rfl rfl (by decide) (by decide) (by decide)
    rw [h]
    have h0 : ('0'.toNat : ℕ) = 48 := rfl
    have h5 : ('5'.toNat : ℕ) = 53 := rfl
    norm_num [decimalValue, natFromDigits, digitVal, h0, h5]
  · have h := transfer_amount_interpretation.2.2 "acct.near" (fun _ => [0]) 0
      { action := some "transfer", receiver := some "r", amount := some "1.5" }
      "1.5" (3 / 2) rfl rfl rfl rfl rfl (by
        have : ("1.5" : String) = ⟨['1'] ++ '.' :: ['5']⟩ := rfl
        rw [this, parseFloatJS_decimal ['1'] ['5'] (by decide) (by decide) (by decide)]
        have h1 : ('1'.toNat : ℕ) = 49 := rfl
        have h5 : ('5'.toNat : ℕ) = 53 := rfl
        norm_num [decimalValue, natFromDigits, digitVal, h1, h5])
    rw [h]
    norm_num

/-- Counterexample to C2 as stated: the `route.ts` handler, given the
transfer amount string `1.5` (which contains a decimal point), sets
`amountSatoshis` to `⌊1.5⌋ = 1` instead of the
`⌊1.5 * 100000000⌋ = 150000000` required by the decimal-point rule. -/
theorem route_transfer_amount_counterexample :
    (Route.GET "acct.near" (okDerive (fun _ => [0])) 0
      { action := some "transfer", receiver := some "r",
        amount := some "1.5" }).transactionPayload.map (·.amountSatoshis) =
      some (some 1) ∧
    (1 : ℤ) ≠ ⌊(3 / 2 : ℚ) * 100000000⌋ := by
  constructor
  · have h := route_transfer_amountSats "acct.near" (fun _ => [0]) 0
      { action := some "transfer", receiver := some "r", amount := some "1.5" }
      "1.5" (3 / 2) rfl rfl rfl rfl rfl (by
        have : ("1.5" : String) = ⟨['1'] ++ '.' :: ['5']⟩ := rfl
        rw [this, parseFloatJS_decimal ['1'] ['5'] (by decide) (by decide) (by decide)]
        have h1 : ('1'.toNat : ℕ) = 49 := rfl
        have h5 : ('5'.toNat : ℕ) = 53 := rfl
        norm_num [decimalValue, natFromDigits, digitVal, h1, h5])
    rw [h]
    norm_num
  · norm_num

/-!
## Shape of the Runes payloads (claim C3)
-/

theorem hexOfBytes_length (bs : List ℕ) : (hexOfBytes bs).length = 2 * bs.length := by
  show ((bs.map byteHexChars).flatten).length = 2 * bs.length
  rw [List.length_flatten]
  induction bs with
  | nil => rfl
  | cons b bs ih =>
    simp only [List.map_cons, List.sum_cons, ih, byteHexChars, List.length_cons]
    simp [List.length_cons]
    ring

theorem padStart_length (s : String) (n : ℕ) (c : Char) :
    (padStart s n c).length = max n s.length := by
  unfold padStart
  split
  · omega
  · show (List.replicate (n - s.length) c ++ s.data).length = _
    rw [List.length_append, List.length_replicate]
    have : s.data.length = s.length := rfl
    omega

theorem toHexString_length_pos (n : ℕ) : 1 ≤ (toHexString n).length := by
  show 1 ≤ (hexList n).length
  have := hexList_ne_nil n
  cases h : hexList n with
  | nil => exact absurd h this
  | cons c l => simp [List.length_cons]

theorem toHexString_length_le (k : ℕ) (hk : 1 ≤ k) (n : ℕ) (hn : n < 16 ^ k) :
    (toHexString n).length ≤ k := hexList_length_le k hk n hn

theorem etch_take4 (t : String) (d s m : ℕ) :
    (Service.createRuneEtchPayload t d s m).data.take 4 = ['5', '2', '4', '5'] := by
  unfold Service.createRuneEtchPayload
  rw [String.data_append, String.data_append, String.data_append]
  rw [show ("52" ++ "45" : String).data = ['5', '2', '4', '5'] from rfl]
  simp [List.take]

theorem transfer_take4 (t : String) (a : ℕ) :
    (Service.createRuneTransferPayload t a).data.take 4 = ['5', '2', '5', '4'] := by
  unfold Service.createRuneTransferPayload
  rw [String.data_append, String.data_append, String.data_append]
  rw [show ("52" : String).data = ['5', '2'] from rfl,
    show ("54" : String).data = ['5', '4'] from rfl]
  simp [List.take]

theorem etch_length_even (t : String) (d s m : ℕ) (hd : d < 256)
    (hs : s < 2 ^ 64) :
    (Service.createRuneEtchPayload t d s m).length % 2 = 0 := by
  unfold Service.createRuneEtchPayload
  rw [String.length_append, String.length_append, String.length_append]
  rw [show ("52" ++ "45" : String).length = 4 from rfl]
  rw [hexOfBytes_length, padStart_length, padStart_length]
  have h1 : (toHexString d).length ≤ 2 :=
    toHexString_length_le 2 (by norm_num) d (by norm_num at hd ⊢; omega)
  have h2 : (toHexString s).length ≤ 16 :=
    toHexString_length_le 16 (by norm_num) s (by
      have : (16 : ℕ) ^ 16 = 2 ^ 64 := by norm_num
      omega)
  omega

theorem transfer_length_even (t : String) (a : ℕ) (ha : a < 2 ^ 64) :
    (Service.createRuneTransferPayload t a).length % 2 = 0 := by
  unfold Service.createRuneTransferPayload
  rw [String.length_append, String.length_append, String.length_append]
  rw [show ("52" : String).length = 2 from rfl,
    show ("54" : String).length = 2 from rfl]
  rw [hexOfBytes_length, padStart_length]
  have h2 : (toHexString a).length ≤ 16 :=
    toHexString_length_le 16 (by norm_num) a (by
      have : (16 : ℕ) ^ 16 = 2 ^ 64 := by norm_num
      omega)
  omega

/-- C3 (amended): for every ticker and every input, the etch payload
begins with the four hex characters `5245` and the transfer payload
with `5254`; the payloads are even-length hex strings whenever the
`decimals` value fits in two hex digits (`< 256`) and the
`supply` / `amount` values fit in sixteen (`< 2 ^ 64`) — outside those
ranges the `padStart` padding cannot restore an even length. -/
theorem runePayload_prefix_and_even :
    (∀ (t : String) (d s m : ℕ),
      (Service.createRuneEtchPayload t d s m).data.take 4 = ['5', '2', '4', '5']) ∧
    (∀ (t : String) (a : ℕ),
      (Service.createRuneTransferPayload t a).data.take 4 = ['5', '2', '5', '4']) ∧
    (∀ (t : String) (d s m : ℕ), d < 256 → s < 2 ^ 64 →
      (Service.createRuneEtchPayload t d s m).length % 2 = 0) ∧
    (∀ (t : String) (a : ℕ), a < 2 ^ 64 →
      (Service.createRuneTransferPayload t a).length % 2 = 0) :=
  ⟨etch_take4, transfer_take4, etch_length_even, transfer_length_even⟩

/-- Witness for the amended C3 at a concrete ticker and in-range
numeric inputs. -/
theorem runePayload_prefix_and_even_witness :
    (Service.createRuneEtchPayload "ABC" 2 21000000 840000).data.take 4 =
      ['5', '2', '4', '5'] ∧
    (Service.createRuneTransferPayload "ABC" 1000).data.take 4 =
      ['5', '2', '5', '4'] ∧
    (Service.createRuneEtchPayload "ABC" 2 21000000 840000).length % 2 = 0 ∧
    (Service.createRuneTransferPayload "ABC" 1000).length % 2 = 0 :=
  ⟨runePayload_prefix_and_even.1 "ABC" 2 21000000 840000,
   runePayload_prefix_and_even.2.1 "ABC" 1000,
   runePayload_prefix_and_even.2.2.1 "ABC" 2 21000000 840000 (by norm_num) (by norm_num),
   runePayload_prefix_and_even.2.2.2 "ABC" 1000 (by norm_num)⟩

/-- Counterexample to C3 as stated: with `decimals = 256` (three hex
digits, beyond the two-digit `padStart`), the etch payload for the
empty ticker has the odd length 23, so it is not an even-length hex
string for every input. -/
theorem runeEtch_odd_length_counterexample :
    (Service.createRuneEtchPayload "" 256 21000000 840000).length = 23 ∧
    (23 : ℕ) % 2 ≠ 0 := by
  constructor
  · unfold Service.createRuneEtchPayload
    rw [String.length_append, String.length_append, String.length_append]
    rw [show ("52" ++ "45" : String).length = 4 from rfl]
    rw [hexOfBytes_length]
    have hu : utf8Encode "" = [] := rfl
    rw [hu]
    have h256 : toHexString 256 = ⟨['1', '0', '0']⟩ := by
      show (⟨hexList 256⟩ : String) = _
      rw [show hexList 256 = (hexRev 256).reverse from by norm_num [hexList]]
      rw [hexRev, hexRev, hexRev, hexRev]
      norm_num [hexChar]
    have h21m : (toHexString 21000000).length = 7 := by
      show (hexList 21000000).length = 7
      rw [show hexList 21000000 = (hexRev 21000000).reverse from by norm_num [hexList]]
      rw [hexRev, hexRev, hexRev, hexRev, hexRev, hexRev, hexRev, hexRev]
      norm_num
    rw [h256]
    rw [padStart_length, padStart_length, h21m]
    rfl
  · norm_num

/-!
## Output values of the mock transaction payload (claim C10)
-/

/-- C10: the output values of `createBitcoinTransactionPayload` always
sum to `utxo.value - 1000` (the fixed 1000-satoshi fee), every
OP_RETURN (raw-hex script) output carries value 0, and when the caller
omits the `utxo` parameter the default mock UTXO makes the change
output (index 1) exactly 0. -/
theorem createBitcoinTransactionPayload_outputs (fa fpk ta : String) (amt : Int)
    (dp : String) (oph : Option String) (u : Option Service.Utxo) :
    (((Service.createBitcoinTransactionPayload fa fpk ta amt dp oph u).1.outputs.map
        (·.value)).sum =
      (u.getD ⟨"defaultTxid", 0, amt + 1000⟩).value - 1000) ∧
    (∀ o ∈ (Service.createBitcoinTransactionPayload fa fpk ta amt dp oph u).1.outputs,
      ∀ h, o.scriptPubKey = .hex h → o.value = 0) ∧
    (u = none →
      ((Service.createBitcoinTransactionPayload fa fpk ta amt dp oph u).1.outputs.map
        (·.value))[1]? = some 0) := by
  refine ⟨?_, ?_, ?_⟩
  · unfold Service.createBitcoinTransactionPayload
    cases oph <;> simp <;> ring
  · unfold Service.createBitcoinTransactionPayload
    cases oph <;>
      · intro o ho h hh
        simp at ho
        rcases ho with ho | ho <;> first
          | (subst ho; simp_all)
          | (rcases ho with ho | ho <;> (subst ho; simp_all))
  · intro hu
    subst hu
    unfold Service.createBitcoinTransactionPayload
    cases oph <;> simp

/-- Witness for C10 at concrete arguments, with and without an
explicit UTXO. -/
theorem createBitcoinTransactionPayload_outputs_witness :
    (((Service.createBitcoinTransactionPayload "from" "pk" "to" 5000 "bitcoin-1"
        (some "abcd") none).1.outputs.map (·.value)).sum = 5000 + 1000 - 1000) ∧
    (∀ o ∈ (Service.createBitcoinTransactionPayload "from" "pk" "to" 5000 "bitcoin-1"
        (some "abcd") none).1.outputs,
      ∀ h, o.scriptPubKey = .hex h → o.value = 0) ∧
    (((Service.createBitcoinTransactionPayload "from" "pk" "to" 5000 "bitcoin-1"
        (some "abcd") none).1.outputs.map (·.value))[1]? = some 0) :=
  let h := createBitcoinTransactionPayload_outputs "from" "pk" "to" 5000 "bitcoin-1"
    (some "abcd") none
  ⟨h.1, h.2.1, h.2.2 rfl⟩
